import Mathlib

/-!
Shallow embedding of the adwlauncher entry-aggregation and ranking engine.

Each Rust source function is translated into a Lean definition of the same
name.  Filesystem, IPC and clock effects are made explicit: every impure
operation the Rust code performs is represented by an oracle field of an
environment structure, and the functions are parameterised by that
environment.  Machine integers (u64 timestamps / window ids, u32 counters)
are modelled as Nat; f64 arithmetic on the dyadic scoring constants is
modelled exactly over the rationals/reals.
-/

/-- OpenType from src/types.rs (and duplicated in src/main.rs). -/
inductive OpenType where
  | Graphical
  | Terminal
  | Window
deriving DecidableEq, Repr

/-- Entry from src/types.rs: a launchable candidate. -/
structure Entry where
  open_type : OpenType
  exec : String
  icon : String
  name : String
deriving DecidableEq, Repr

/-- LauncherError from src/error.rs.  Io collapses std::io::Error to its
message; ParseInt carries no payload (the ParseIntError detail is unused). -/
inductive LauncherError where
  | NiriConnection (msg : String)
  | NiriRequest (msg : String)
  | DesktopEntry (msg : String)
  | Io (msg : String)
  | ParseInt
deriving DecidableEq, Repr

/-! ## Icon resolver (src/icon.rs)

Paths are modelled as strings; PathBuf::join is string concatenation with a
slash separator, and Path::exists is the oracle fs : String → Bool. -/

def ICON_SIZES : List Nat := [256, 128, 96, 64, 48, 32, 24, 16]

def ICON_THEMES : List String := ["hicolor", "Adwaita", "gnome"]

def ICON_EXTENSIONS : List String := [".png", ".svg", ".xpm"]

/-- Fuel-bounded model of str::trim_end_matches, which removes the suffix
repeatedly.  The fuel s.length is enough for every reachable iteration
count, since each successful strip removes at least one character. -/
def trimEndMatchesAux : Nat → String → String → String
  | 0, s, _ => s
  | n + 1, s, suf =>
    if suf.length > 0 && s.endsWith suf then
      trimEndMatchesAux n (s.dropRight suf.length) suf
    else s

def trim_end_matches (s suf : String) : String :=
  trimEndMatchesAux s.length s suf

/-- Model of find_in_pixmaps from src/icon.rs. -/
def find_in_pixmaps (fs : String → Bool) (icon_name : String) : Option String :=
  ["/usr/share/pixmaps", "/usr/share/icons"].findSome? fun dir =>
    let path := dir ++ "/" ++ icon_name
    if fs path then some path else none

/-- Size-specific subdirectories tried for each size in src/icon.rs (the
scalable entries are re-listed for every size, exactly as in the source). -/
def size_dirs (size : Nat) : List String :=
  [toString size ++ "x" ++ toString size ++ "/apps",
   toString size ++ "x" ++ toString size ++ "/places",
   toString size ++ "x" ++ toString size ++ "/mimetypes",
   "scalable/apps",
   "scalable/places"]

/-- Model of find_in_icon_themes from src/icon.rs.  The nested for loops
with early return are expressed with findSome?; the theme-root probe runs
after the size loop for each (base_dir, theme) pair, as in the source. -/
def find_in_icon_themes (fs : String → Bool) (home : String)
    (icon_name : String) : Option String :=
  let icon_base :=
    trim_end_matches (trim_end_matches (trim_end_matches icon_name ".png") ".svg") ".xpm"
  let icon_base_dirs :=
    ["/usr/share/icons", home ++ "/.local/share/icons", home ++ "/.icons"]
  icon_base_dirs.findSome? fun base_dir =>
    ICON_THEMES.findSome? fun theme =>
      match ICON_SIZES.findSome? (fun size =>
        (size_dirs size).findSome? fun size_dir =>
          ICON_EXTENSIONS.findSome? fun ext =>
            let path := base_dir ++ "/" ++ theme ++ "/" ++ size_dir ++ "/" ++ icon_base ++ ext
            if fs path then some path else none) with
      | some p => some p
      | none =>
        ICON_EXTENSIONS.findSome? fun ext =>
          let path := base_dir ++ "/" ++ theme ++ "/" ++ icon_base ++ ext
          if fs path then some path else none

/-- Model of resolve_icon_path from src/icon.rs. -/
def resolve_icon_path (fs : String → Bool) (home : String)
    (icon_name : String) : Option String :=
  if icon_name.startsWith "/" && fs icon_name then
    some icon_name
  else
    match (if icon_name.contains '.' then find_in_pixmaps fs icon_name else none) with
    | some path => some path
    | none =>
      match find_in_icon_themes fs home icon_name with
      | some path => some path
      | none => some icon_name

def get_fallback_icon : String := "application-x-executable"

/-! ## Cache (src/cache.rs) -/

/-- CacheData from src/cache.rs; the HashMap of directory timestamps is
modelled as an association list (unique keys) and SystemTime as Nat. -/
structure CacheData where
  entries : List Entry
  directory_timestamps : List (String × Nat)
deriving DecidableEq, Repr

def CacheData.new : CacheData := ⟨[], []⟩

/-- Filesystem / serialization oracle for the cache and discovery code.
Each field records the outcome the corresponding Rust I/O call would have:
cache_dir is dirs::cache_dir(); cache_read is fs::read of the cache file;
cache_decode is postcard deserialization; dir_mtime is get_dir_mtime
(none meaning the metadata call failed); read_dir lists a directory
(none meaning read_dir failed, covering the skip branch); parse_entry is
the per-file desktop-entry parse outcome (none for any parse failure,
including an unreadable dirent); save_ok is the cache write outcome. -/
structure CacheEnv where
  cache_dir : Option String
  create_dir_ok : Bool
  cache_file_exists : Bool
  cache_read : Except String (List Nat)
  cache_decode : List Nat → Except String CacheData
  dir_exists : String → Bool
  dir_mtime : String → Option Nat
  read_dir : String → Option (List String)
  parse_entry : String → Option Entry
  save_ok : Bool
  home : String

structure Cache where
  cache_path : String
deriving DecidableEq, Repr

/-- Model of Cache::new from src/cache.rs. -/
def Cache.new (env : CacheEnv) : Except LauncherError Cache :=
  match env.cache_dir with
  | none => .error (.Io "Could not find cache directory")
  | some d =>
    if env.create_dir_ok then
      .ok ⟨d ++ "/adwlauncher" ++ "/entries.cache"⟩
    else
      .error (.Io "create_dir_all failed")

/-- Model of Cache::load from src/cache.rs: an absent file yields the empty
CacheData, but a failed read or a failed deserialization is an error. -/
def Cache.load (env : CacheEnv) (_c : Cache) : Except LauncherError CacheData :=
  if !env.cache_file_exists then
    .ok CacheData.new
  else
    match env.cache_read with
    | .error e => .error (.Io e)
    | .ok data =>
      match env.cache_decode data with
      | .error e => .error (.Io ("Failed to deserialize cache: " ++ e))
      | .ok cd => .ok cd

/-- Model of Cache::save from src/cache.rs. -/
def Cache.save (env : CacheEnv) (_c : Cache) (_cache_data : CacheData) :
    Except LauncherError Unit :=
  if env.save_ok then .ok () else .error (.Io "write failed")

/-- Model of Cache::is_valid from src/cache.rs: a directory that does not
exist is skipped; a failed mtime read or a missing/mismatched stored
timestamp returns false. -/
def Cache.is_valid (env : CacheEnv) (cache_data : CacheData)
    (directories : List String) : Bool :=
  directories.all fun dir =>
    if !env.dir_exists dir then
      true
    else
      match env.dir_mtime dir with
      | none => false
      | some current_mtime =>
        match cache_data.directory_timestamps.lookup dir with
        | some cached_mtime => cached_mtime == current_mtime
        | none => false

/-- Model of get_app_directories from src/cache.rs (HOME already resolved
through its unwrap_or fallback into the home argument). -/
def get_app_directories (home : String) : List String :=
  ["/usr/share/applications",
   home ++ "/.local/share/applications",
   "/var/lib/flatpak/exports/share/applications/",
   home ++ "/.local/share/flatpak/exports/share/applications/"]

/-- Model of collect_directory_timestamps from src/cache.rs. -/
def collect_directory_timestamps (env : CacheEnv) (directories : List String) :
    List (String × Nat) :=
  directories.filterMap fun dir => (env.dir_mtime dir).map fun mtime => (dir, mtime)

/-! ## Aggregation (src/app_discovery.rs) -/

/-- Model of get_desktop_entries from src/app_discovery.rs: unreadable
directories are skipped, each file is parsed independently and failures
are dropped; the function never produces an error. -/
def get_desktop_entries (env : CacheEnv) (app_dirs : List String) :
    Except LauncherError (List Entry) :=
  .ok (app_dirs.foldl (fun entries app_dir =>
    entries ++
      match env.read_dir app_dir with
      | none => []
      | some files => files.filterMap env.parse_entry) [])

/-- Guard on which get_desktop_entries_cached serves the cached entries
(src/app_discovery.rs line 30): validity and non-emptiness together. -/
def cache_usable (env : CacheEnv) (cache_data : CacheData)
    (app_dirs : List String) : Bool :=
  Cache.is_valid env cache_data app_dirs && !cache_data.entries.isEmpty

/-- Model of get_desktop_entries_cached from src/app_discovery.rs; each
question-mark operator becomes an explicit match on the result.  The save
outcome is computed but, as in the source, only logged: it does not affect
the returned value. -/
def get_desktop_entries_cached (env : CacheEnv) :
    Except LauncherError (List Entry) :=
  match Cache.new env with
  | .error e => .error e
  | .ok cache =>
    let app_dirs := get_app_directories env.home
    match Cache.load env cache with
    | .error e => .error e
    | .ok cache_data =>
      if cache_usable env cache_data app_dirs then
        .ok cache_data.entries
      else
        match get_desktop_entries env app_dirs with
        | .error e => .error e
        | .ok entries =>
          let new_cache_data : CacheData :=
            ⟨entries, collect_directory_timestamps env app_dirs⟩
          let _saved := Cache.save env cache new_cache_data
          .ok entries

/-- Window description delivered by the compositor (niri_ipc::Window). -/
structure NiriWindow where
  id : Nat
  title : Option String
  app_id : Option String

/-- IPC / filesystem oracle for window enumeration: connect_err, send_err
and reply_err are the three failure points of the socket round trip, and
response is the Windows payload (none modelling an unexpected response
variant). -/
structure WinEnv where
  connect_err : Option String
  send_err : Option String
  reply_err : Option String
  response : Option (List NiriWindow)
  fs : String → Bool
  home : String

/-- Model of get_window_entries from src/app_discovery.rs. -/
def get_window_entries (env : WinEnv) : Except LauncherError (List Entry) :=
  match env.connect_err with
  | some e => .error (.NiriConnection ("Failed to connect: " ++ e))
  | none =>
    match env.send_err with
    | some e => .error (.NiriRequest ("Failed to send request: " ++ e))
    | none =>
      match env.reply_err with
      | some e => .error (.NiriRequest ("Niri error: " ++ e))
      | none =>
        match env.response with
        | none => .error (.NiriRequest "Unexpected response type")
        | some windows =>
          .ok (windows.filterMap fun w =>
            let name := w.title.getD ""
            if name.isEmpty then
              none
            else
              match w.app_id with
              | none => none
              | some app_id =>
                let icon := (resolve_icon_path env.fs env.home app_id).getD app_id
                some ⟨.Window, toString w.id, icon, name⟩)

/-- Combined environment for the aggregate call. -/
structure AggEnv where
  cache : CacheEnv
  win : WinEnv

/-- Model of get_entries from src/app_discovery.rs: desktop entries first,
then window entries, each behind the question-mark operator (rendered as a
match on the result). -/
def get_entries (env : AggEnv) : Except LauncherError (List Entry) :=
  match get_desktop_entries_cached env.cache with
  | .error e => .error e
  | .ok desktop =>
    match get_window_entries env.win with
    | .error e => .error e
    | .ok windows => .ok (desktop ++ windows)

/-! ## Launch dispatch (src/app_discovery.rs) -/

/-- Requests the dispatcher can send over the compositor socket. -/
inductive NiriRequest where
  | Spawn (command : List String)
  | FocusWindow (id : Nat)
deriving DecidableEq, Repr

/-- IPC oracle for launch_entry: per-request transport and reply outcomes. -/
structure IpcEnv where
  connect_err : Option String
  send_err : NiriRequest → Option String
  reply_err : NiriRequest → Option String

/-- Model of str::parse::<u64>, working on the character list of the
string: an optional leading plus sign followed by at least one ASCII
digit, with the value required to fit in 64 bits. -/
def parse_u64 (s : String) : Option Nat :=
  let digits := match s.data with
    | '+' :: rest => rest
    | cs => cs
  if digits.isEmpty then
    none
  else if digits.all Char.isDigit then
    let v := digits.foldl (fun acc c => acc * 10 + (c.toNat - 48)) 0
    if v < 2 ^ 64 then some v else none
  else
    none

/-- Model of str::split_whitespace: split on whitespace, dropping empty
tokens. -/
def split_whitespace (s : String) : List String :=
  (s.split Char.isWhitespace).filter fun t => !t.isEmpty

/-- Model of launch_entry from src/app_discovery.rs.  The second component
of the result lists every request handed to soc.send, so a claim about
requests reaching the compositor is a claim about that trace. -/
def launch_entry (env : IpcEnv) (entry : Entry) :
    Except LauncherError Unit × List NiriRequest :=
  match env.connect_err with
  | some e => (.error (.NiriConnection ("Failed to connect: " ++ e)), [])
  | none =>
    match entry.open_type with
    | .Terminal =>
      let req := NiriRequest.Spawn ["ghostty", "-c", entry.exec]
      (match env.send_err req with
       | some e => .error (.NiriRequest ("Failed to spawn terminal: " ++ e))
       | none =>
         match env.reply_err req with
         | some e => .error (.NiriRequest ("Niri error: " ++ e))
         | none => .ok (), [req])
    | .Graphical =>
      let req := NiriRequest.Spawn
        ((split_whitespace entry.exec).filter fun s => !s.contains '%')
      (match env.send_err req with
       | some e => .error (.NiriRequest ("Failed to spawn application: " ++ e))
       | none =>
         match env.reply_err req with
         | some e => .error (.NiriRequest ("Niri error: " ++ e))
         | none => .ok (), [req])
    | .Window =>
      match parse_u64 entry.exec with
      | none => (.error .ParseInt, [])
      | some id =>
        let req := NiriRequest.FocusWindow id
        (match env.send_err req with
         | some e => .error (.NiriRequest ("Failed to focus window: " ++ e))
         | none =>
           match env.reply_err req with
           | some e => .error (.NiriRequest ("Niri error: " ++ e))
           | none => .ok (), [req])

/-! ## Usage tracker (src/usage.rs) -/

/-- UsageStats from src/usage.rs (u64 / u32 fields as Nat). -/
structure UsageStats where
  last_used : Nat
  use_count : Nat
deriving DecidableEq, Repr

/-- UsageTracker from src/usage.rs; the HashMap is modelled as a function
from names to optional stats, matching the only access pattern used
(HashMap::get). -/
structure UsageTracker where
  stats : String → Option UsageStats

def UsageTracker.new : UsageTracker := ⟨fun _ => none⟩

/-- Model of UsageTracker::get_stats. -/
def UsageTracker.get_stats (t : UsageTracker) (app_name : String) :
    Option UsageStats :=
  t.stats app_name

/-- Storage oracle for UsageTracker::load. -/
structure UsageLoadEnv where
  storage_dir : Option String
  file_exists : Bool
  read_result : Except String (List Nat)
  decode : List Nat → Except String UsageTracker

/-- Model of UsageTracker::load from src/usage.rs: an absent file yields
the empty tracker, but a failed read or failed deserialization is an
error. -/
def UsageTracker.load (env : UsageLoadEnv) : Except LauncherError UsageTracker :=
  match env.storage_dir with
  | none => .error (.Io "Could not find cache directory")
  | some _ =>
    if !env.file_exists then
      .ok UsageTracker.new
    else
      match env.read_result with
      | .error e => .error (.Io e)
      | .ok data =>
        match env.decode data with
        | .error e => .error (.Io ("Failed to deserialize usage data: " ++ e))
        | .ok t => .ok t

/-- Recency component of UsageTracker::calculate_boost (src/usage.rs lines
99-113), an exact rational rendering of the f64 piecewise formula. -/
def recency_boost (age_seconds : Nat) : ℚ :=
  if age_seconds < 3600 then 1
  else if age_seconds < 86400 then 0.8 + 0.2 * (1 - (age_seconds : ℚ) / 86400)
  else if age_seconds < 604800 then 0.5 + 0.3 * (1 - (age_seconds : ℚ) / 604800)
  else if age_seconds < 2592000 then 0.2 + 0.3 * (1 - (age_seconds : ℚ) / 2592000)
  else 0.1

/-- Frequency component of UsageTracker::calculate_boost (src/usage.rs
lines 116-117): ln(use_count)/10 capped at 1. -/
noncomputable def frequency_boost (use_count : Nat) : ℝ :=
  min (Real.log use_count / 10) 1

/-- Model of UsageTracker::calculate_boost from src/usage.rs, with the
clock read current_timestamp() made an explicit argument now; the u64
saturating subtraction is Nat subtraction. -/
noncomputable def calculate_boost (t : UsageTracker) (now : Nat)
    (app_name : String) : ℝ :=
  match t.get_stats app_name with
  | none => 0
  | some stats =>
    let age_seconds := now - stats.last_used
    (recency_boost age_seconds : ℝ) * 0.7 + frequency_boost stats.use_count * 0.3

/-! ## Ranking (src/main.rs, App::filter_entries)

The SkimMatcherV2 fuzzy matcher is an external crate; it enters the
embedding as an oracle matcher : name → query → Option score.  The
relm4 widget bookkeeping around the list is presentation-layer state; the
candidate-list transformation itself is the pure function below. -/

/-- Scored candidate list built in the non-empty-query branch of
App::filter_entries (src/main.rs lines 457-465). -/
def scored_entries (matcher : String → String → Option Int) (query : String)
    (all_entries : List Entry) : List (Int × Entry) :=
  all_entries.filterMap fun entry =>
    (matcher entry.name query).map fun score => (score, entry)

/-- Model of App::filter_entries from src/main.rs lines 449-474: empty
query shows all entries in input order; otherwise the scored candidates
are stably sorted by descending score (Rust sort_by is stable, as is
mergeSort) and the scores are discarded. -/
def filter_entries (matcher : String → String → Option Int) (query : String)
    (all_entries : List Entry) : List Entry :=
  if query.isEmpty then
    all_entries
  else
    ((scored_entries matcher query all_entries).mergeSort
      (fun a b => decide (b.1 ≤ a.1))).map (fun se => se.2)

/-! ## Supporting lemmas on the usage scoring model -/

theorem recency_boost_le_one (a : Nat) : recency_boost a ≤ 1 := by
  unfold recency_boost
  split_ifs
  all_goals try norm_num
  all_goals
    (have ha0 : (0:ℚ) ≤ (a:ℚ) := Nat.cast_nonneg a
     linarith)

theorem recency_boost_ge_tenth (a : Nat) : (1:ℚ)/10 ≤ recency_boost a := by
  unfold recency_boost
  split_ifs
  all_goals try norm_num
  all_goals
    (try have c2 : (a:ℚ) < 86400 := by exact_mod_cast (show a < 86400 by omega)
     try have c3 : (a:ℚ) < 604800 := by exact_mod_cast (show a < 604800 by omega)
     try have c4 : (a:ℚ) < 2592000 := by exact_mod_cast (show a < 2592000 by omega)
     linarith)

theorem recency_boost_antitone {a b : Nat} (hab : a ≤ b) :
    recency_boost b ≤ recency_boost a := by
  unfold recency_boost
  split_ifs
  all_goals try rfl
  all_goals try (exfalso; omega)
  all_goals
    (have ha0 : (0:ℚ) ≤ (a:ℚ) := Nat.cast_nonneg a
     have hb0 : (0:ℚ) ≤ (b:ℚ) := Nat.cast_nonneg b
     have habq : (a:ℚ) ≤ (b:ℚ) := by exact_mod_cast hab
     try have c1 : (a:ℚ) < 3600 := by exact_mod_cast (show a < 3600 by omega)
     try have c2 : (a:ℚ) < 86400 := by exact_mod_cast (show a < 86400 by omega)
     try have c3 : (a:ℚ) < 604800 := by exact_mod_cast (show a < 604800 by omega)
     try have c4 : (a:ℚ) < 2592000 := by exact_mod_cast (show a < 2592000 by omega)
     try have c5 : (b:ℚ) < 86400 := by exact_mod_cast (show b < 86400 by omega)
     try have c6 : (b:ℚ) < 604800 := by exact_mod_cast (show b < 604800 by omega)
     try have c7 : (b:ℚ) < 2592000 := by exact_mod_cast (show b < 2592000 by omega)
     linarith)

theorem frequency_boost_nonneg (c : Nat) : 0 ≤ frequency_boost c := by
  unfold frequency_boost
  have h := Real.log_natCast_nonneg c
  exact le_min (by linarith) zero_le_one

theorem frequency_boost_le_one (c : Nat) : frequency_boost c ≤ 1 :=
  min_le_right _ 1

theorem frequency_boost_mono {c c' : Nat} (h : c ≤ c') :
    frequency_boost c ≤ frequency_boost c' := by
  unfold frequency_boost
  have hlog : Real.log c ≤ Real.log c' := by
    rcases Nat.eq_zero_or_pos c with h0 | hpos
    · subst h0
      simpa [Real.log_zero] using Real.log_natCast_nonneg c'
    · exact Real.log_le_log (by exact_mod_cast hpos) (by exact_mod_cast h)
  exact min_le_min (by linarith) le_rfl

/-! ## Claim C6: continuity of the recency branches at age = 3600 -/

/-- C6 counterexample: the claim asserts that at age = 3600 the second
branch 0.8 + 0.2·(1 − age/86400) evaluates to 1.0, matching branch 1; in
fact the function (whose value at 3600 IS the second branch) evaluates to
119/120 there, so the recency component is not continuous at the
boundary. -/
theorem recency_boost_3600_ne_one : recency_boost 3600 ≠ 1 := by
  norm_num [recency_boost]

/-- C6 amended: the recency component is discontinuous at the age = 3600
branch boundary: branch 1 gives 1 for age 3599, while branch 2 gives
119/120 at age 3600, a strict downward jump of 1/120. -/
theorem recency_boost_boundary_jump :
    recency_boost 3599 = 1 ∧ recency_boost 3600 = 119/120 ∧
    recency_boost 3600 < recency_boost 3599 := by
  norm_num [recency_boost]

/-! ## Claim C7: shape of calculate_boost -/

/-- C7: for a tracker whose records all have use_count ≥ 1, calculate_boost
returns 0 for an absent name, always lies in [0, 1], is monotonically
non-increasing in age (taking a later now against the same record can only
lower the boost), and is monotonically non-decreasing in use_count for a
fixed last_used and now. -/
theorem calculate_boost_props (t : UsageTracker) (app_name : String)
    (h : ∀ n s, t.stats n = some s → 1 ≤ s.use_count) :
    (t.stats app_name = none → ∀ now, calculate_boost t now app_name = 0) ∧
    (∀ now, 0 ≤ calculate_boost t now app_name ∧
      calculate_boost t now app_name ≤ 1) ∧
    (∀ now₁ now₂, now₁ ≤ now₂ →
      calculate_boost t now₂ app_name ≤ calculate_boost t now₁ app_name) ∧
    (∀ (t' : UsageTracker) (now l c c' : Nat),
      t.stats app_name = some ⟨l, c⟩ → t'.stats app_name = some ⟨l, c'⟩ →
      c ≤ c' →
      calculate_boost t now app_name ≤ calculate_boost t' now app_name) := by
  refine ⟨fun h0 now => ?_, fun now => ?_, fun now₁ now₂ h12 => ?_,
    fun t' now l c c' hs hs' hcc => ?_⟩
  · simp [calculate_boost, UsageTracker.get_stats, h0]
  · cases hs : t.stats app_name with
    | none => simp [calculate_boost, UsageTracker.get_stats, hs]
    | some s =>
      have hr1 : ((recency_boost (now - s.last_used) : ℚ) : ℝ) ≤ 1 := by
        exact_mod_cast recency_boost_le_one (now - s.last_used)
      have hr0 : ((1:ℚ)/10 : ℝ) ≤ ((recency_boost (now - s.last_used) : ℚ) : ℝ) := by
        exact_mod_cast recency_boost_ge_tenth (now - s.last_used)
      have hf0 := frequency_boost_nonneg s.use_count
      have hf1 := frequency_boost_le_one s.use_count
      constructor <;>
        (simp only [calculate_boost, UsageTracker.get_stats, hs]
         push_cast at hr0 ⊢
         nlinarith)
  · cases hs : t.stats app_name with
    | none => simp [calculate_boost, UsageTracker.get_stats, hs]
    | some s =>
      have hsub : now₁ - s.last_used ≤ now₂ - s.last_used :=
        Nat.sub_le_sub_right h12 s.last_used
      have hr : ((recency_boost (now₂ - s.last_used) : ℚ) : ℝ) ≤
          ((recency_boost (now₁ - s.last_used) : ℚ) : ℝ) := by
        exact_mod_cast recency_boost_antitone hsub
      simp only [calculate_boost, UsageTracker.get_stats, hs]
      nlinarith
  · have hf := frequency_boost_mono hcc
    simp only [calculate_boost, UsageTracker.get_stats, hs, hs']
    nlinarith

def trackerC7 : UsageTracker := ⟨fun _ => some ⟨0, 1⟩⟩

/-- C7 witness: instantiating calculate_boost_props on a concrete tracker
whose single record shape has use_count = 1, at a concrete clock value. -/
theorem calculate_boost_props_witness :
    0 ≤ calculate_boost trackerC7 42 "Firefox" ∧
    calculate_boost trackerC7 42 "Firefox" ≤ 1 :=
  (calculate_boost_props trackerC7 "Firefox"
    (fun n s hs => by
      simp only [trackerC7] at hs
      cases hs
      exact le_refl 1)).2.1 42

/-! ## Claim C1: aggregate behaviour when window enumeration fails -/

def cacheEnvC1 : CacheEnv :=
  { cache_dir := some "/home/user/.cache"
    create_dir_ok := true
    cache_file_exists := false
    cache_read := .ok []
    cache_decode := fun _ => .error "unused"
    dir_exists := fun _ => false
    dir_mtime := fun _ => none
    read_dir := fun d =>
      if d = "/usr/share/applications" then
        some ["/usr/share/applications/firefox.desktop"]
      else none
    parse_entry := fun p =>
      if p = "/usr/share/applications/firefox.desktop" then
        some ⟨.Graphical, "firefox %u", "firefox", "Firefox"⟩
      else none
    save_ok := true
    home := "/home/user" }

def winEnvC1 : WinEnv :=
  ⟨some "connection refused", none, none, none, fun _ => false, "/home/user"⟩

def aggEnvC1 : AggEnv := ⟨cacheEnvC1, winEnvC1⟩

/-- C1 counterexample: with desktop-entry retrieval succeeding (one entry)
and the compositor connection failing, get_entries returns the connection
error instead of the successfully retrieved desktop entries, contradicting
the claim that the call still returns them. -/
theorem get_entries_drops_desktop_on_window_failure :
    get_desktop_entries_cached aggEnvC1.cache =
      .ok [⟨.Graphical, "firefox %u", "firefox", "Firefox"⟩] ∧
    get_entries aggEnvC1 =
      .error (.NiriConnection "Failed to connect: connection refused") := by
  constructor <;> rfl

/-- C1 amended: a window-enumeration failure propagates out of get_entries
unchanged even when desktop-entry retrieval succeeded; the aggregate call
returns entries only when both sources succeed, so desktop results are
suppressed rather than returned on a compositor failure. -/
theorem get_entries_window_failure_propagates (env : AggEnv)
    (d : List Entry) (e : LauncherError)
    (hd : get_desktop_entries_cached env.cache = .ok d)
    (hw : get_window_entries env.win = .error e) :
    get_entries env = .error e := by
  simp [get_entries, hd, hw, Except.bind]

/-- C1 witness: the amended propagation fact at the concrete environment of
the counterexample. -/
theorem get_entries_window_failure_propagates_witness :
    get_entries aggEnvC1 =
      .error (.NiriConnection "Failed to connect: connection refused") :=
  get_entries_window_failure_propagates aggEnvC1
    [⟨.Graphical, "firefox %u", "firefox", "Firefox"⟩]
    (.NiriConnection "Failed to connect: connection refused") rfl rfl

/-! ## Claim C2: error behaviour of get_desktop_entries_cached -/

def cacheEnvC2 : CacheEnv :=
  { cache_dir := some "/home/user/.cache"
    create_dir_ok := true
    cache_file_exists := true
    cache_read := .ok [0]
    cache_decode := fun _ => .error "wrong variant"
    dir_exists := fun _ => false
    dir_mtime := fun _ => none
    read_dir := fun _ => none
    parse_entry := fun _ => none
    save_ok := true
    home := "/home/user" }

/-- C2 counterexample: with the cache file present but corrupt (read
succeeds, deserialization fails), get_desktop_entries_cached returns an
error to the caller instead of treating the failure as a cache miss and
rebuilding, contradicting the claim that it never errors. -/
theorem get_desktop_entries_cached_corrupt_errors :
    get_desktop_entries_cached cacheEnvC2 =
      .error (.Io "Failed to deserialize cache: wrong variant") := by
  rfl

/-- C2 amended: an ABSENT cache file is treated as a cache miss: retrieval
rebuilds from the application directories and returns the rebuilt list
(never an error on that path, whatever the save outcome, which is only
logged); but a corrupt or unreadable existing cache file, or a cache
directory failure, is returned to the caller as an error. -/
theorem get_desktop_entries_cached_absent_rebuilds (env : CacheEnv)
    (d : String) (hdir : env.cache_dir = some d)
    (hmk : env.create_dir_ok = true) (hex : env.cache_file_exists = false) :
    get_desktop_entries_cached env =
      get_desktop_entries env (get_app_directories env.home) ∧
    ∃ l, get_desktop_entries_cached env = .ok l := by
  have h1 : get_desktop_entries_cached env =
      get_desktop_entries env (get_app_directories env.home) := by
    simp [get_desktop_entries_cached, Cache.new, hdir, hmk, Cache.load, hex,
      cache_usable, CacheData.new, get_desktop_entries, Except.bind]
  refine ⟨h1, ?_⟩
  rw [h1]
  exact ⟨_, rfl⟩

def cacheEnvC2b : CacheEnv :=
  { cacheEnvC2 with
    cache_file_exists := false
    save_ok := false
    read_dir := fun d =>
      if d = "/usr/share/applications" then
        some ["/usr/share/applications/gimp.desktop"]
      else none
    parse_entry := fun p =>
      if p = "/usr/share/applications/gimp.desktop" then
        some ⟨.Graphical, "gimp-3.0 %U", "gimp", "GNU Image Manipulation Program"⟩
      else none }

/-- C2 witness: the amended fact at a concrete environment with an absent
cache file and a FAILING cache save, showing the rebuilt list is still
returned. -/
theorem get_desktop_entries_cached_absent_rebuilds_witness :
    get_desktop_entries_cached cacheEnvC2b =
      get_desktop_entries cacheEnvC2b (get_app_directories cacheEnvC2b.home) ∧
    ∃ l, get_desktop_entries_cached cacheEnvC2b = .ok l :=
  get_desktop_entries_cached_absent_rebuilds cacheEnvC2b "/home/user/.cache"
    rfl rfl rfl

/-! ## Claim C3: what is_valid actually checks -/

def cacheEnvC3 : CacheEnv :=
  { cache_dir := some "/home/user/.cache"
    create_dir_ok := true
    cache_file_exists := true
    cache_read := .ok []
    cache_decode := fun _ => .ok CacheData.new
    dir_exists := fun _ => false
    dir_mtime := fun _ => none
    read_dir := fun _ => none
    parse_entry := fun _ => none
    save_ok := true
    home := "/home/user" }

/-- C3 counterexample: on a freshly booted system where none of the
application directories exist, is_valid returns true for the empty cache
snapshot even though its entry list is empty, contradicting the claimed
iff (which requires a non-empty entry list for validity). -/
theorem is_valid_true_with_empty_entries :
    Cache.is_valid cacheEnvC3 CacheData.new (get_app_directories "/home/user") = true ∧
    CacheData.new.entries = [] := by
  constructor <;> rfl

/-- C3 amended: is_valid itself checks only timestamps: it returns true
iff every directory in the set that exists on disk has a readable current
modification time equal to the stored timestamp; it never inspects the
entry list.  The zero-entry rejection is enforced separately by the
caller, whose combined guard (is_valid AND entry list non-empty) satisfies
exactly the iff the claim states. -/
theorem is_valid_and_guard_characterization (env : CacheEnv) (cd : CacheData)
    (dirs : List String) :
    (Cache.is_valid env cd dirs = true ↔
      ∀ dir ∈ dirs, env.dir_exists dir = true →
        ∃ t, env.dir_mtime dir = some t ∧
          cd.directory_timestamps.lookup dir = some t) ∧
    (cache_usable env cd dirs = true ↔
      ((∀ dir ∈ dirs, env.dir_exists dir = true →
        ∃ t, env.dir_mtime dir = some t ∧
          cd.directory_timestamps.lookup dir = some t) ∧
       cd.entries ≠ [])) := by
  have h1 : Cache.is_valid env cd dirs = true ↔
      ∀ dir ∈ dirs, env.dir_exists dir = true →
        ∃ t, env.dir_mtime dir = some t ∧
          cd.directory_timestamps.lookup dir = some t := by
    unfold Cache.is_valid
    rw [List.all_eq_true]
    apply forall_congr'
    intro dir
    apply imp_congr_right
    intro _
    cases hex : env.dir_exists dir with
    | false => simp [hex]
    | true =>
      cases hmt : env.dir_mtime dir with
      | none => simp [hex, hmt]
      | some cur =>
        cases hlk : cd.directory_timestamps.lookup dir with
        | none => simp [hex, hmt, hlk]
        | some cached =>
          simp only [hex, hmt, hlk, Bool.not_true, Bool.false_eq_true,
            if_false, beq_iff_eq, Option.some.injEq, true_implies]
          constructor
          · rintro rfl
            exact ⟨_, rfl, rfl⟩
          · rintro ⟨t, rfl, h2⟩
            exact h2
  refine ⟨h1, ?_⟩
  rw [cache_usable, Bool.and_eq_true, h1, Bool.not_eq_true']
  rw [List.isEmpty_eq_false]

/-! ## Claim C8: error behaviour of UsageTracker::load -/

def usageEnvC8 : UsageLoadEnv :=
  ⟨some "/home/user/.cache", true, .ok [7], fun _ => .error "bad tag"⟩

/-- C8 counterexample: with the usage file present and readable but its
contents failing deserialization, load returns an error instead of the
empty tracker the claim promises for any deserialization error. -/
theorem usage_load_corrupt_errors :
    UsageTracker.load usageEnvC8 =
      .error (.Io "Failed to deserialize usage data: bad tag") := by
  rfl

/-- C8 amended: load returns the empty tracker (not an error) only in the
missing-file case; a failed read and a deserialization failure of an
existing file are both returned to the caller as errors. -/
theorem usage_load_missing_file_empty (env : UsageLoadEnv) (d : String)
    (hdir : env.storage_dir = some d) (hex : env.file_exists = false) :
    UsageTracker.load env = .ok UsageTracker.new := by
  unfold UsageTracker.load
  rw [hdir, hex]
  rfl

def usageEnvC8b : UsageLoadEnv :=
  ⟨some "/home/user/.cache", false, .ok [], fun _ => .error "unused"⟩

/-- C8 witness: the amended fact at a concrete environment whose usage
file does not exist. -/
theorem usage_load_missing_file_empty_witness :
    UsageTracker.load usageEnvC8b = .ok UsageTracker.new :=
  usage_load_missing_file_empty usageEnvC8b "/home/user/.cache" rfl rfl

/-! ## Claim C9: Window launch with a malformed id -/

/-- C9: for every Window entry whose exec string does not parse as an
unsigned 64-bit integer, and every environment in which the socket
connection itself succeeds, launch_entry fails with the parse error and
the trace of requests handed to the compositor is empty. -/
theorem launch_window_parse_error (env : IpcEnv) (entry : Entry)
    (hty : entry.open_type = .Window)
    (hparse : parse_u64 entry.exec = none)
    (hconn : env.connect_err = none) :
    launch_entry env entry = (.error .ParseInt, []) := by
  unfold launch_entry
  rw [hconn, hty, hparse]

def ipcEnvC9 : IpcEnv := ⟨none, fun _ => none, fun _ => none⟩

def entryC9 : Entry := ⟨.Window, "abc", "some-icon", "Some Window"⟩

/-- C9 witness: launching the Window entry with exec "abc" on a healthy
connection fails with the parse error and sends nothing. -/
theorem launch_window_parse_error_witness :
    launch_entry ipcEnvC9 entryC9 = (.error .ParseInt, []) :=
  launch_window_parse_error ipcEnvC9 entryC9 rfl (by decide) rfl

/-! ## Claim C10: totality of resolve_icon_path -/

/-- C10: resolve_icon_path always returns some string, and when nothing
matches on disk (the absolute-path probe, the pixmap search and the theme
search all fail) it returns the original icon name unchanged, so the
unwrap_or_else fallbacks at its call sites can never fire. -/
theorem resolve_icon_path_total (fs : String → Bool) (home icon_name : String) :
    (resolve_icon_path fs home icon_name).isSome = true ∧
    (fs icon_name = false →
      find_in_pixmaps fs icon_name = none →
      find_in_icon_themes fs home icon_name = none →
      resolve_icon_path fs home icon_name = some icon_name) := by
  constructor
  · unfold resolve_icon_path
    split
    · rfl
    · split
      · rfl
      · split
        · rfl
        · rfl
  · intro h1 h2 h3
    simp [resolve_icon_path, h1, h2, h3]

/-- Auxiliary fact: findSome? of a constantly-none function finds
nothing. -/
theorem findSome?_const_none {α β : Type} (l : List α) :
    l.findSome? (fun _ => (none : Option β)) = none := by
  simp [List.findSome?_eq_none_iff]

/-- Auxiliary fact: with a filesystem on which no path exists, the theme
search finds nothing. -/
theorem find_in_icon_themes_all_false (home icon_name : String) :
    find_in_icon_themes (fun _ => false) home icon_name = none := by
  simp [find_in_icon_themes, List.findSome?_eq_none_iff, findSome?_const_none]

/-- C10 witness: on a filesystem with no matching file at all, the
resolver returns the queried name unchanged. -/
theorem resolve_icon_path_total_witness :
    resolve_icon_path (fun _ => false) "/home/user" "firefox" = some "firefox" :=
  (resolve_icon_path_total (fun _ => false) "/home/user" "firefox").2 rfl
    (by simp [find_in_pixmaps, List.findSome?_eq_none_iff])
    (find_in_icon_themes_all_false "/home/user" "firefox")

/-! ## Supporting lemmas on the ranking model -/

theorem scored_entries_mem {m : String → String → Option Int} {q : String}
    {es : List Entry} {p : Int × Entry} (hp : p ∈ scored_entries m q es) :
    p.2 ∈ es ∧ m p.2.name q = some p.1 := by
  unfold scored_entries at hp
  rw [List.mem_filterMap] at hp
  obtain ⟨e, he, hfe⟩ := hp
  cases hm : m e.name q with
  | none => rw [hm] at hfe; simp at hfe
  | some s =>
    rw [hm] at hfe
    simp only [Option.map_some'] at hfe
    cases hfe
    exact ⟨he, hm⟩

theorem map_snd_scored (m : String → String → Option Int) (q : String)
    (es : List Entry) :
    (scored_entries m q es).map (fun se => se.2) =
      es.filter (fun e => (m e.name q).isSome) := by
  induction es with
  | nil => rfl
  | cons e es ih =>
    unfold scored_entries at ih ⊢
    cases hm : m e.name q with
    | none => simp [List.filterMap_cons, List.filter_cons, hm, ih]
    | some s => simp [List.filterMap_cons, List.filter_cons, hm, ih]

theorem score_le_trans (a b c : Int × Entry) :
    decide (b.1 ≤ a.1) = true → decide (c.1 ≤ b.1) = true →
    decide (c.1 ≤ a.1) = true := by
  intro h1 h2
  simp only [decide_eq_true_eq] at *
  exact le_trans h2 h1

theorem score_le_total (a b : Int × Entry) :
    (decide (b.1 ≤ a.1) || decide (a.1 ≤ b.1)) = true := by
  simp only [Bool.or_eq_true, decide_eq_true_eq]
  exact le_total b.1 a.1

theorem filter_entries_nonempty_unfold (m : String → String → Option Int)
    (q : String) (es : List Entry) (hq : q ≠ "") :
    filter_entries m q es =
      ((scored_entries m q es).mergeSort
        (fun a b => decide (b.1 ≤ a.1))).map (fun se => se.2) := by
  unfold filter_entries
  rw [if_neg (fun hh => hq ((String.isEmpty_iff q).mp hh))]

/-! ## Claim C4: ranking with an empty query -/

def trackerC4 : UsageTracker :=
  ⟨fun n => if n = "Brave" then some ⟨1000, 1⟩ else none⟩

def entryA4 : Entry := ⟨.Graphical, "alacritty", "alacritty", "Alacritty"⟩

def entryB4 : Entry := ⟨.Graphical, "brave %U", "brave", "Brave"⟩

/-- C4 counterexample: with an empty query the output keeps the input
order [Alacritty, Brave] even though Brave has the strictly larger usage
boost (0.7 against 0, the tracker holding one fresh record for Brave), so
the output is not sorted by descending usage boost as claimed. -/
theorem filter_entries_empty_query_ignores_boost :
    filter_entries (fun _ _ => none) "" [entryA4, entryB4] = [entryA4, entryB4] ∧
    calculate_boost trackerC4 1000 entryA4.name <
      calculate_boost trackerC4 1000 entryB4.name := by
  constructor
  · rfl
  · have hA : calculate_boost trackerC4 1000 entryA4.name = 0 := by
      simp [calculate_boost, UsageTracker.get_stats, trackerC4, entryA4]
    have hB : calculate_boost trackerC4 1000 entryB4.name =
        (recency_boost 0 : ℝ) * 0.7 + frequency_boost 1 * 0.3 := by
      simp [calculate_boost, UsageTracker.get_stats, trackerC4, entryB4]
    rw [hA, hB]
    norm_num [recency_boost, frequency_boost, Real.log_one]

/-- C4 amended: with an empty query the ranking output is exactly the
input candidate list in its original order (trivially a permutation); no
usage-boost sorting takes place, and indeed the ranking code consults no
usage state at all. -/
theorem filter_entries_empty_query_id (matcher : String → String → Option Int)
    (all_entries : List Entry) :
    filter_entries matcher "" all_entries = all_entries := rfl

/-! ## Claim C5: ranking with a non-empty query -/

/-- Modelled from the spec: spec section 4.6 claims the implementation
ranks matched candidates by the key combined = fuzzy_score × (1 + boost ×
0.5).  This definition follows the spec words; it exists only to compare
the claimed key with the key the code actually sorts by. -/
noncomputable def spec_combined (matcher : String → String → Option Int)
    (t : UsageTracker) (now : Nat) (query : String) (e : Entry) : ℝ :=
  match matcher e.name query with
  | some score => (score : ℝ) * (1 + calculate_boost t now e.name * 0.5)
  | none => 0

def matcherC5 : String → String → Option Int := fun name _query =>
  if name = "Firefox" then some 10
  else if name = "Files" then some 9
  else none

def eFirefoxC5 : Entry := ⟨.Graphical, "firefox %u", "firefox", "Firefox"⟩

def eFilesC5 : Entry := ⟨.Graphical, "nautilus %U", "files", "Files"⟩

def eGimpC5 : Entry := ⟨.Graphical, "gimp", "gimp", "GIMP"⟩

def trackerC5 : UsageTracker :=
  ⟨fun n => if n = "Files" then some ⟨500, 1⟩ else none⟩

/-- C5 counterexample: for the query "fx", GIMP (no match) is excluded,
but the output [Firefox, Files] is ordered by the raw fuzzy score (10
against 9) even though the claimed key combined = score × (1 + boost ×
0.5) ranks Files (9 × 1.35 = 12.15, its record being fresh with boost
0.7) strictly above Firefox (10 × 1 = 10): the code does not sort by the
claimed combined key. -/
theorem filter_entries_not_sorted_by_combined :
    filter_entries matcherC5 "fx" [eFirefoxC5, eFilesC5, eGimpC5] =
      [eFirefoxC5, eFilesC5] ∧
    spec_combined matcherC5 trackerC5 500 "fx" eFirefoxC5 <
      spec_combined matcherC5 trackerC5 500 "fx" eFilesC5 := by
  constructor
  · rw [filter_entries_nonempty_unfold matcherC5 "fx" _ (by decide)]
    have hs : scored_entries matcherC5 "fx" [eFirefoxC5, eFilesC5, eGimpC5] =
        [(10, eFirefoxC5), (9, eFilesC5)] := by
      simp [scored_entries, matcherC5, eFirefoxC5, eFilesC5, eGimpC5]
    rw [hs]
    rw [List.mergeSort_of_sorted (by simp [List.pairwise_cons])]
    rfl
  · have hF : spec_combined matcherC5 trackerC5 500 "fx" eFirefoxC5 = 10 := by
      simp [spec_combined, matcherC5, eFirefoxC5, calculate_boost,
        UsageTracker.get_stats, trackerC5]
    have hFl : spec_combined matcherC5 trackerC5 500 "fx" eFilesC5 =
        9 * (1 + ((recency_boost 0 : ℝ) * 0.7 + frequency_boost 1 * 0.3) * 0.5) := by
      simp [spec_combined, matcherC5, eFilesC5, calculate_boost,
        UsageTracker.get_stats, trackerC5]
    rw [hF, hFl]
    norm_num [recency_boost, frequency_boost, Real.log_one]

/-- C5 amended: for every non-empty query, candidates the matcher rejects
are excluded (no score, never visible); the output is a permutation of the
matched candidates sorted by descending RAW fuzzy score (the usage boost
plays no role in the key), and candidates with equal scores keep their
relative input order (the sort is stable). -/
theorem filter_entries_nonempty_query (matcher : String → String → Option Int)
    (query : String) (all_entries : List Entry) (hq : query ≠ "") :
    ((filter_entries matcher query all_entries).Perm
      (all_entries.filter fun e => (matcher e.name query).isSome)) ∧
    (∀ e, matcher e.name query = none →
      e ∉ filter_entries matcher query all_entries) ∧
    List.Pairwise
      (fun e1 e2 => ∀ s1 s2, matcher e1.name query = some s1 →
        matcher e2.name query = some s2 → s2 ≤ s1)
      (filter_entries matcher query all_entries) ∧
    (∀ (s : Int) (e1 e2 : Entry),
      [(s, e1), (s, e2)].Sublist (scored_entries matcher query all_entries) →
      [e1, e2].Sublist (filter_entries matcher query all_entries)) := by
  have hunf := filter_entries_nonempty_unfold matcher query all_entries hq
  refine ⟨?_, ?_, ?_, ?_⟩
  · rw [hunf, ← map_snd_scored matcher query all_entries]
    exact List.Perm.map _ (List.mergeSort_perm _ _)
  · intro e hnone hmem
    rw [hunf, List.mem_map] at hmem
    obtain ⟨p, hp, hpe⟩ := hmem
    have hps : p ∈ scored_entries matcher query all_entries :=
      (List.mergeSort_perm _ _).mem_iff.mp hp
    have := (scored_entries_mem hps).2
    rw [hpe, hnone] at this
    exact Option.noConfusion this
  · have hsorted := List.sorted_mergeSort score_le_trans score_le_total
      (scored_entries matcher query all_entries)
    rw [hunf, List.pairwise_map]
    refine hsorted.imp_of_mem ?_
    intro a b ha hb hr s1 s2 hs1 hs2
    have has : a ∈ scored_entries matcher query all_entries :=
      (List.mergeSort_perm _ _).mem_iff.mp ha
    have hbs : b ∈ scored_entries matcher query all_entries :=
      (List.mergeSort_perm _ _).mem_iff.mp hb
    have ha2 := (scored_entries_mem has).2
    have hb2 := (scored_entries_mem hbs).2
    rw [ha2] at hs1
    rw [hb2] at hs2
    cases hs1
    cases hs2
    simpa using hr
  · intro s e1 e2 hsub
    have hpw : List.Pairwise
        (fun a b : Int × Entry => decide (b.1 ≤ a.1) = true)
        [(s, e1), (s, e2)] := by
      simp [List.pairwise_cons]
    have hms := List.sublist_mergeSort score_le_trans score_le_total hpw hsub
    rw [hunf]
    simpa using List.Sublist.map (fun se : Int × Entry => se.2) hms

/-- C5 witness: the amended characterization instantiated on the concrete
query "fx" against [Firefox, Files, GIMP], taking its permutation
conjunct. -/
theorem filter_entries_nonempty_query_witness :
    ("fx" : String) ≠ "" ∧
    (filter_entries matcherC5 "fx" [eFirefoxC5, eFilesC5, eGimpC5]).Perm
      ([eFirefoxC5, eFilesC5, eGimpC5].filter
        fun e => (matcherC5 e.name "fx").isSome) :=
  ⟨by decide,
   (filter_entries_nonempty_query matcherC5 "fx"
     [eFirefoxC5, eFilesC5, eGimpC5] (by decide)).1⟩
